import Mathlib

/-!
Shallow embedding of the route handlers of the school-administration CRUD API
(teachers, students, professionals, events, users), together with proofs about
their behaviour.  Each resource is an in-memory array loaded from a JSON file;
mutating handlers may rewrite the whole file.  Handlers are embedded as pure
functions from the store state and the request data to an HTTP outcome and the
new store state.  JSON serialization is abstracted: the file contents are
modelled as the list of records it decodes to.
-/

set_option autoImplicit false

namespace ApiGestaoEnsino

/-- Result of one request: `ok status body` models `res.status(s).json(body)`
(with `res.json(b)` being status 200), `err status msg` models
`res.status(s).json({"erro": msg})`, and `crash msg` models a synchronous
JavaScript exception thrown inside the handler before any response is sent. -/
inductive Outcome (α : Type) where
  | ok (status : Nat) (body : α)
  | err (status : Nat) (msg : String)
  | crash (msg : String)
deriving Repr, DecidableEq

/-- State of a file-backed collection: the in-memory array (`require`d at
startup) and the decoded contents of the JSON file on disk. -/
structure Store (α : Type) where
  mem : List α
  file : List α
deriving Repr, DecidableEq

/-- Models `fs.writeFileSync(dbPath, JSON.stringify(mem), 'utf8')`: the file on
disk now holds exactly the serialized in-memory array. -/
def writeFileSync {α : Type} (s : Store α) : Store α :=
  { s with file := s.mem }

/-- JavaScript truthiness of a string field: `!x` succeeds exactly when the
field is absent or the empty string.  An absent field is modelled as `""`. -/
def truthy (s : String) : Bool := !s.isEmpty

/-- JavaScript truthiness of an optional query parameter (`if (q)`): falsy when
absent (`undefined`) or the empty string. -/
def qTruthy : Option String → Bool
  | none => false
  | some s => !s.isEmpty

/-- ASCII lower-casing of one character, as `String.prototype.toLowerCase`
acts on the ASCII range (the case mapping outside ASCII is not modelled; the
data and queries compared here are handled identically by both mappings). -/
def jsCharToLower (c : Char) : Char :=
  if 'A' ≤ c ∧ c ≤ 'Z' then Char.ofNat (c.toNat + 32) else c

/-- Models `String.prototype.toLowerCase` (ASCII range). -/
def jsToLowerCase (s : String) : String :=
  ⟨s.data.map jsCharToLower⟩

/-- Whether the first character list is a prefix of the second. -/
def listIsPrefix : List Char → List Char → Bool
  | [], _ => true
  | _ :: _, [] => false
  | a :: as, b :: bs => a == b && listIsPrefix as bs

/-- Whether `sub` occurs as a contiguous sublist of the second list. -/
def listContainsSub (sub : List Char) : List Char → Bool
  | [] => sub.isEmpty
  | c :: t => listIsPrefix sub (c :: t) || listContainsSub sub t

/-- Models `String.prototype.includes`: `jsIncludes s sub` is true when `sub`
occurs in `s` as a contiguous substring (the empty string occurs in every
string, as in JavaScript). -/
def jsIncludes (s sub : String) : Bool :=
  listContainsSub sub.data s.data

/-- Models `String.prototype.startsWith`. -/
def jsStartsWith (s pre : String) : Bool :=
  listIsPrefix pre.data s.data

/-- Models `Array.prototype.findIndex`: index of the first element satisfying
`p`.  The source returns `-1` when there is none; that sentinel is modelled as
`none`. -/
def jsFindIndex {α : Type} (p : α → Bool) : List α → Option Nat
  | [] => none
  | a :: l => if p a then some 0 else (jsFindIndex p l).map (· + 1)

/-- Models ECMAScript `ToIntegerOrInfinity` on the strings this API passes as a
`splice` start argument (route ids): a string of decimal digits converts to
that number, any other string (such as a UUID) converts to `NaN`, which
truncates to `0`.  Negative and fractional forms do not occur here. -/
def jsToIntegerOrInfinity (s : String) : Nat :=
  let cs := s.toList
  if cs ≠ [] ∧ cs.all Char.isDigit then
    cs.foldl (fun n c => n * 10 + (c.toNat - 48)) 0
  else 0

/-- A JavaScript array object is always truthy, whatever its length; the
`if (!findUser)` check in the users search handler tests exactly this. -/
def jsArrayTruthy {α : Type} (_ : List α) : Bool := true

/-! ### Teachers (src/routes/teachersRoutes.js) -/

/-- Teacher record, fields as in the swagger schema of teachersRoutes.js. -/
structure Teacher where
  id : String
  name : String
  school_disciplines : String
  contact : String
  phone_number : String
  status : String
deriving Repr, DecidableEq

/-- Embeds `router.get('/:id')` of teachersRoutes.js. -/
def teachersGetById (db : List Teacher) (id : String) : Outcome Teacher :=
  match db.find? (fun t => t.id == id) with
  | none => .err 404 "Professor(a) não encontrado"
  | some t => .ok 200 t

/-- Embeds `router.get('/name/name')` of teachersRoutes.js.  The handler reads
`req.query.name` unconditionally: when the query parameter is absent,
`undefined.toLowerCase()` throws a TypeError before any response is sent. -/
def teachersSearchByName (db : List Teacher) (nameQ : Option String) :
    Outcome (List Teacher) :=
  match nameQ with
  | none => .crash "TypeError: Cannot read properties of undefined"
  | some q =>
    let name := jsToLowerCase q
    let teachers := db.filter (fun t => jsIncludes (jsToLowerCase t.name) name)
    if teachers.length == 0 then
      .err 404 "Nenhum professor(a) encontrado"
    else
      .ok 200 teachers

/-- Embeds `router.post('/')` of teachersRoutes.js: assign a fresh id, check
each required field, push, rewrite the file.  `genId` stands for the `uuidv4()`
call. -/
def teachersCreate (s : Store Teacher) (body : Teacher) (genId : String) :
    Outcome Teacher × Store Teacher :=
  let teacher := { body with id := genId }
  if !truthy teacher.name then (.err 400 "O Professor(a) precisa ter um nome", s)
  else if !truthy teacher.school_disciplines then
    (.err 400 "O professor(a) precisa ter uma disciplina", s)
  else if !truthy teacher.contact then
    (.err 400 "O professor(a) precisas ter um e-mail", s)
  else if !truthy teacher.phone_number then
    (.err 400 "O professor(a) precisa ter um telefone", s)
  else if !truthy teacher.status then
    (.err 400 "O professor(a) precisa ter um status", s)
  else
    (.ok 200 teacher, writeFileSync { s with mem := s.mem ++ [teacher] })

/-- Embeds `router.put('/:id')` of teachersRoutes.js: on a known id and a body
with every required field present, keep the stored id and replace the whole
record, then rewrite the file.  On an unknown id the handler answers status
400 (its own swagger documents 400 here). -/
def teachersUpdate (s : Store Teacher) (id : String) (body : Teacher) :
    Outcome Teacher × Store Teacher :=
  match jsFindIndex (fun t => t.id == id) s.mem with
  | none => (.err 400 "Professor(a) não encontrado", s)
  | some idx =>
    if !truthy body.name then (.err 400 "O Professor(a) precisa ter um nome", s)
    else if !truthy body.school_disciplines then
      (.err 400 "O professor(a) precisa ter uma disciplina", s)
    else if !truthy body.contact then
      (.err 400 "O professor(a) precisas ter um e-mail", s)
    else if !truthy body.phone_number then
      (.err 400 "O professor(a) precisa ter um telefone", s)
    else if !truthy body.status then
      (.err 400 "O professor(a) precisa ter um status", s)
    else
      let oldId := ((s.mem.get? idx).map Teacher.id).getD ""
      let newTeacher := { body with id := oldId }
      (.ok 200 newTeacher, writeFileSync { s with mem := s.mem.set idx newTeacher })

/-- Embeds `router.delete('/:id')` of teachersRoutes.js: find the index of the
record with the given id, splice it out, rewrite the file, return the removed
record.  The inner `crash` branch is unreachable: the index delivered by
`findIndex` is always in range. -/
def teachersDelete (s : Store Teacher) (id : String) :
    Outcome Teacher × Store Teacher :=
  match jsFindIndex (fun t => t.id == id) s.mem with
  | none => (.err 404 "Professor(a) não encontrado", s)
  | some idx =>
    match s.mem.get? idx with
    | none => (.crash "unreachable", s)
    | some deletado =>
      (.ok 200 deletado, writeFileSync { s with mem := s.mem.eraseIdx idx })

/-! ### Students (the students route module, src/unnamed/part_000) -/

/-- Student record, fields as in the swagger schema of the students module. -/
structure Student where
  id : String
  name : String
  age : String
  phone_number : String
  status : String
deriving Repr, DecidableEq

/-- Embeds `router.get('/name/name')` of the students module: same shape as the
teachers search, including the TypeError when the query parameter is absent. -/
def studentsSearchByName (db : List Student) (nameQ : Option String) :
    Outcome (List Student) :=
  match nameQ with
  | none => .crash "TypeError: Cannot read properties of undefined"
  | some q =>
    let name := jsToLowerCase q
    let students := db.filter (fun st => jsIncludes (jsToLowerCase st.name) name)
    if students.length == 0 then
      .err 404 "Nenhum estudante encontrado"
    else
      .ok 200 students

/-- Embeds `router.put('/:id')` of the students module.  After validating and
writing `newStudent` into the in-memory array, the handler evaluates
`JSON.stringify(teachersDB)` — but `teachersDB` is not defined in that module,
so a ReferenceError is thrown: the file is never written and no response is
sent (`res.json(newTeacher)` is never reached), while the in-memory array has
already been mutated. -/
def studentsUpdate (s : Store Student) (id : String) (body : Student) :
    Outcome Student × Store Student :=
  match jsFindIndex (fun st => st.id == id) s.mem with
  | none => (.err 400 "Estudante não encontrado", s)
  | some idx =>
    if !truthy body.name then (.err 400 "Estudante precisa ter um nome", s)
    else if !truthy body.age then (.err 400 "O estudante precisa ter uma idade", s)
    else if !truthy body.phone_number then
      (.err 400 "O estudante precisa ter um telefone", s)
    else if !truthy body.status then
      (.err 400 "O estudante precisa ter um status", s)
    else
      let oldId := ((s.mem.get? idx).map Student.id).getD ""
      let newStudent := { body with id := oldId }
      (.crash "ReferenceError: teachersDB is not defined",
        { s with mem := s.mem.set idx newStudent })

/-- Embeds `router.delete('/:id')` of the students module.  The handler checks
that a record with the id exists, then executes `studentsDB.splice(id, 1)[0]`:
the id string itself is used as the splice start index, so it is coerced with
`ToIntegerOrInfinity` (a UUID coerces to 0) and the record at that array
position is removed and returned — not the record whose id matched.  No file
write occurs in this handler. -/
def studentsDelete (s : Store Student) (id : String) :
    Outcome (Option Student) × Store Student :=
  match s.mem.find? (fun st => st.id == id) with
  | none => (.err 404 "Estudante não encontrado", s)
  | some _ =>
    let start := Nat.min (jsToIntegerOrInfinity id) s.mem.length
    (.ok 200 (s.mem.get? start), { s with mem := s.mem.eraseIdx start })

/-! ### Events (file-backed variant of src/routes/eventsRoutes.js) -/

/-- Event record of the file-backed events module. -/
structure Event where
  id : String
  description : String
  date : String
  comments : String
deriving Repr, DecidableEq

/-- Request body for the events update: JavaScript objects carry only the keys
the client sent, and the spread `{...old, ...body}` copies exactly the keys
present in `body`; `none` models an absent key. -/
structure EventBody where
  id : Option String
  description : Option String
  date : Option String
  comments : Option String
deriving Repr, DecidableEq

/-- Models the regex test `/^\d{4}-\d{2}-\d{2}$/.test(date)`. -/
def validDateFormat (d : String) : Bool :=
  let cs := d.toList
  cs.length == 10 && (cs.take 4).all Char.isDigit && cs.get? 4 == some '-' &&
    ((cs.drop 5).take 2).all Char.isDigit && cs.get? 7 == some '-' &&
    ((cs.drop 8).take 2).all Char.isDigit

/-- Embeds `router.get('/search')` of the file-backed events module: optional
case-insensitive substring filter on the description, then an optional
date-prefix filter guarded by a format check; the (possibly empty) filtered
list is returned as the result. -/
def eventsSearch (db : List Event) (descrQ dateQ : Option String) :
    Outcome (List Event) :=
  let filtered :=
    if qTruthy descrQ then
      db.filter (fun e => jsIncludes (jsToLowerCase e.description) (jsToLowerCase (descrQ.getD "")))
    else db
  if qTruthy dateQ then
    if !validDateFormat (dateQ.getD "") then
      .err 400 "Formato de data inválido. Use YYYY-MM-DD."
    else
      .ok 200 (filtered.filter (fun e => jsStartsWith e.date (dateQ.getD "")))
  else
    .ok 200 filtered

/-- Models `{ ...old, ...body }`: every key present in the body overwrites the
stored field, including the `id` key. -/
def mergeEvent (old : Event) (b : EventBody) : Event :=
  { id := b.id.getD old.id
    description := b.description.getD old.description
    date := b.date.getD old.date
    comments := b.comments.getD old.comments }

/-- Embeds `router.put('/:id')` of the file-backed events module: on a known id
the stored record is replaced by the spread-merge of itself with the request
body (no field validation), the file is rewritten and the merged record is
returned; an unknown id answers 404.  The inner `crash` branch is unreachable:
the index delivered by `findIndex` is always in range. -/
def eventsUpdate (s : Store Event) (id : String) (body : EventBody) :
    Outcome Event × Store Event :=
  match jsFindIndex (fun e => e.id == id) s.mem with
  | none => (.err 404 "Evento não encontrado", s)
  | some idx =>
    match s.mem.get? idx with
    | none => (.crash "unreachable", s)
    | some old =>
      let updated := mergeEvent old body
      (.ok 200 updated, writeFileSync { s with mem := s.mem.set idx updated })

/-! ### Professionals (src/routes/professionalsRoutes.js) -/

/-- Professional record, fields as in professionalsRoutes.js. -/
structure Professional where
  id : String
  name : String
  especialidade : String
  email : String
  numero : String
  status : String
deriving Repr, DecidableEq

/-- Embeds `router.post('/')` of professionalsRoutes.js: validate the five
required fields, assign a fresh id, push into the in-memory array and answer
201.  This module never calls `fs.writeFileSync`, so the file on disk is left
untouched by all of its mutating handlers. -/
def professionalsCreate (s : Store Professional) (body : Professional)
    (genId : String) : Outcome Professional × Store Professional :=
  if !truthy body.name then (.err 400 "Profissional precisa ter um 'nome'", s)
  else if !truthy body.especialidade then
    (.err 400 "Profissional precisa ter uma 'especialidade'", s)
  else if !truthy body.email then (.err 400 "Profissional precisa ter um 'email'", s)
  else if !truthy body.numero then (.err 400 "Profissional precisa ter um 'numero'", s)
  else if !truthy body.status then (.err 400 "Profissional precisa ter um 'status'", s)
  else
    let prof := { body with id := genId }
    (.ok 201 prof, { s with mem := s.mem ++ [prof] })

/-! ### Users (src/routes/usersRoutes.js and the alternative users module,
src/unnamed/part_008) -/

/-- User record, fields as in the swagger schema of usersRoutes.js. -/
structure User where
  id : String
  name : String
  email : String
  user : String
  level : String
  status : String
deriving Repr, DecidableEq

/-- Embeds `router.get('/name/:name')` of usersRoutes.js.  The handler filters
by `req.query.name` and never reads the `:name` path parameter (`pathName`
below).  When the query parameter is truthy the collection is filtered
case-insensitively, otherwise `findUser` stays the whole collection; the
not-found guard `if (!findUser)` tests the truthiness of the array object,
which is always truthy, so the 404 branch is dead code. -/
def usersSearchByName (db : List User) (pathName : String)
    (queryName : Option String) : Outcome (List User) :=
  let _ := pathName
  let findUser :=
    if qTruthy queryName then
      db.filter (fun u => jsIncludes (jsToLowerCase u.name) (jsToLowerCase (queryName.getD "")))
    else db
  if !jsArrayTruthy findUser then
    .err 404 "Usuário não encontrado"
  else
    .ok 200 findUser

/-- Embeds `router.post('/')` of the alternative users module
(src/unnamed/part_008): assign a fresh id, check each required field —
answering status 404 (not 400) with a field-specific message when one is
missing — then push and rewrite the file. -/
def usersCreateAlt (s : Store User) (body : User) (genId : String) :
    Outcome User × Store User :=
  let user := { body with id := genId }
  if !truthy user.name then
    (.err 404 "Campo nome do usuário não está preenchido. Por favor preencha para prosseguir o cadastro!", s)
  else if !truthy user.email then
    (.err 404 "Campo email do usuário não está preenchido. Por favor preencha para prosseguir o cadastro!", s)
  else if !truthy user.user then
    (.err 404 "Campo user do usuário não está preenchido. Por favor preencha para prosseguir o cadastro!", s)
  else if !truthy user.level then
    (.err 404 "Campo nível do usuário não está preenchido. Por favor preencha para prosseguir o cadastro!", s)
  else if !truthy user.status then
    (.err 404 "Campo status do usuário não está preenchido. Por favor preencha para prosseguir o cadastro!", s)
  else
    (.ok 200 user, writeFileSync { s with mem := s.mem ++ [user] })

/-! ### Sample records used in concrete evaluations -/

/-- Sample student sitting at array position 0. -/
def studentA : Student :=
  { id := "a-1", name := "Ana", age := "10", phone_number := "111", status := "on" }

/-- Sample student sitting at array position 1. -/
def studentB : Student :=
  { id := "b-2", name := "Bia", age := "11", phone_number := "222", status := "on" }

/-- Valid student request body used for update calls. -/
def studentBody : Student :=
  { id := "client-sent-id", name := "Ana Maria", age := "12", phone_number := "333",
    status := "off" }

/-- Sample stored teacher. -/
def teacherA : Teacher :=
  { id := "t-1", name := "Alice", school_disciplines := "Matemática",
    contact := "alice@escola.net", phone_number := "444", status := "on" }

/-- Valid teacher request body. -/
def teacherBody : Teacher :=
  { id := "client-sent-id", name := "Mateus", school_disciplines := "Português",
    contact := "mateus@escola.net", phone_number := "555", status := "off" }

/-- Sample stored event. -/
def eventA : Event :=
  { id := "e-1", description := "Reunião de equipe", date := "2024-05-20T14:30:00Z",
    comments := "Discutir metas" }

/-- Event update body that carries its own `id` key and a new description, and
omits the `date` and `comments` keys. -/
def eventBodyWithId : EventBody :=
  { id := some "zzz", description := some "Alterada", date := none, comments := none }

/-- Valid professional request body. -/
def professionalBody : Professional :=
  { id := "", name := "Gregori", especialidade := "Fisioterapeuta",
    email := "greg@email.com", numero := "666", status := "on" }

/-- Users request body whose `name` field is missing (modelled as `""`). -/
def userBodyNoName : User :=
  { id := "", name := "", email := "karen@email.com", user := "karen",
    level := "adm", status := "on" }

/-- Sample stored user. -/
def userA : User :=
  { id := "u-1", name := "Karen", email := "karen@email.com", user := "karen",
    level := "adm", status := "on" }

/-! ### Helper lemmas -/

/-- An index produced by `jsFindIndex` is in range and points at an element
satisfying the predicate. -/
theorem jsFindIndex_get {α : Type} {p : α → Bool} {l : List α} {i : Nat}
    (h : jsFindIndex p l = some i) : ∃ a, l.get? i = some a ∧ p a = true := by
  induction l generalizing i with
  | nil => simp [jsFindIndex] at h
  | cons a t ih =>
    by_cases hp : p a
    · simp [jsFindIndex, hp] at h
      exact h ▸ ⟨a, rfl, hp⟩
    · simp [jsFindIndex, hp] at h
      obtain ⟨j, hj, hji⟩ := h
      obtain ⟨b, hb, hpb⟩ := ih hj
      exact ⟨b, by simpa [← hji] using hb, hpb⟩

/-! ### Claims -/

/-- Claim C1.  The delete handlers are claimed to remove exactly the record
whose identifier matches.  The students delete handler instead passes the id
string itself to `splice`, which coerces a UUID-like id to index 0: deleting
`"b-2"` from a two-element collection removes and returns the record at
position 0 (id `"a-1"`), leaves `"b-2"` in the collection (so a second delete
with `"b-2"` succeeds again instead of answering not-found), and never writes
the file. -/
theorem C1_students_delete_removes_wrong_record :
    studentsDelete ⟨[studentA, studentB], [studentA, studentB]⟩ "b-2" =
      (.ok 200 (some studentA), ⟨[studentB], [studentA, studentB]⟩) ∧
    studentA.id ≠ "b-2" ∧
    (studentsDelete ⟨[studentB], [studentA, studentB]⟩ "b-2").1 =
      .ok 200 (some studentB) := by
  decide

/-- Claim C2.  The students update handler is claimed to return the replaced
record and to write only the students collection.  On a known id and a fully
valid body it instead mutates the in-memory students array and then throws
`ReferenceError: teachersDB is not defined` while trying to serialize another
module's collection, so no response is ever sent and the file is not
rewritten. -/
theorem C2_students_update_crashes :
    studentsUpdate ⟨[studentA], [studentA]⟩ "a-1" studentBody =
      (.crash "ReferenceError: teachersDB is not defined",
        ⟨[{ studentBody with id := "a-1" }], [studentA]⟩) := by
  rfl

/-- Claim C3 (counterexample).  Updating event `"e-1"` with a body that carries
`id := "zzz"` stores a record whose identifier is `"zzz"`, not `"e-1"`: the
identifier is not immutable under the events update, and the omitted `date`
and `comments` keys are kept from the old record (merge, not full replace). -/
theorem C3_events_update_changes_id :
    (eventsUpdate ⟨[eventA], [eventA]⟩ "e-1" eventBodyWithId).2.mem =
      [{ id := "zzz", description := "Alterada", date := "2024-05-20T14:30:00Z",
         comments := "Discutir metas" }] ∧
    ("zzz" : String) ≠ "e-1" := by
  refine ⟨rfl, by decide⟩

/-- Claim C3 (amended).  For the teachers update handler the claim holds: on a
known id and a body with every required field present, the handler stores
`{ body with id := old.id }` at the found index — the identifier is taken from
the stored record (immutable, whatever id the body carries) and every other
field comes from the request body. -/
theorem C3_teachers_update_full_replace (s : Store Teacher) (id : String)
    (body : Teacher) (idx : Nat) (old : Teacher)
    (hidx : jsFindIndex (fun t => t.id == id) s.mem = some idx)
    (hold : s.mem.get? idx = some old)
    (h1 : truthy body.name = true)
    (h2 : truthy body.school_disciplines = true)
    (h3 : truthy body.contact = true)
    (h4 : truthy body.phone_number = true)
    (h5 : truthy body.status = true) :
    (teachersUpdate s id body).1 = .ok 200 { body with id := old.id } ∧
    (teachersUpdate s id body).2.mem = s.mem.set idx { body with id := old.id } := by
  have hold' : s.mem[idx]? = some old := by simpa using hold
  simp [teachersUpdate, hidx, hold', h1, h2, h3, h4, h5, writeFileSync]

/-- Claim C3 (witness): the amended teachers-update theorem applied to a
concrete store and body. -/
theorem C3_teachers_update_full_replace_witness :
    (teachersUpdate ⟨[teacherA], [teacherA]⟩ "t-1" teacherBody).1 =
      .ok 200 { teacherBody with id := "t-1" } ∧
    (teachersUpdate ⟨[teacherA], [teacherA]⟩ "t-1" teacherBody).2.mem =
      [{ teacherBody with id := "t-1" }] := by
  have h := C3_teachers_update_full_replace ⟨[teacherA], [teacherA]⟩ "t-1"
    teacherBody 0 teacherA (by decide) rfl rfl rfl rfl rfl rfl
  exact ⟨h.1, h.2⟩

/-- Claim C4 (counterexample).  The professionals create handler succeeds (201
with the new record) but performs no file write: afterwards the in-memory
collection holds the new record while the file still decodes to the old
(empty) collection, so the persisted file does not equal the serialized
in-memory collection. -/
theorem C4_professionals_create_does_not_persist :
    professionalsCreate ⟨[], []⟩ professionalBody "p-1" =
      (.ok 201 { professionalBody with id := "p-1" },
        ⟨[{ professionalBody with id := "p-1" }], []⟩) ∧
    ([{ professionalBody with id := "p-1" }] : List Professional) ≠ [] := by
  refine ⟨rfl, by decide⟩

/-- Claim C4 (amended).  For the teachers handlers the claim holds: whenever
create, update or delete succeeds (answers 200 with a record), the collection
file has been synchronously rewritten and equals the serialized in-memory
collection after the mutation. -/
theorem C4_teachers_mutations_persist (s : Store Teacher) (body : Teacher)
    (genId id : String) :
    (∀ t, (teachersCreate s body genId).1 = .ok 200 t →
      (teachersCreate s body genId).2.file = (teachersCreate s body genId).2.mem) ∧
    (∀ t, (teachersUpdate s id body).1 = .ok 200 t →
      (teachersUpdate s id body).2.file = (teachersUpdate s id body).2.mem) ∧
    (∀ t, (teachersDelete s id).1 = .ok 200 t →
      (teachersDelete s id).2.file = (teachersDelete s id).2.mem) := by
  refine ⟨?_, ?_, ?_⟩ <;> intro t h
  · simp only [teachersCreate] at h ⊢
    repeat' split at h
    all_goals simp_all [writeFileSync]
  · simp only [teachersUpdate] at h ⊢
    repeat' split at h
    all_goals simp_all [writeFileSync]
  · simp only [teachersDelete] at h ⊢
    repeat' split at h
    all_goals simp_all [writeFileSync]

/-- Claim C4 (witness): the amended persistence theorem applied to a concrete
successful delete. -/
theorem C4_teachers_mutations_persist_witness :
    (teachersDelete ⟨[teacherA], [teacherA]⟩ "t-1").2.file =
      (teachersDelete ⟨[teacherA], [teacherA]⟩ "t-1").2.mem := by
  exact (C4_teachers_mutations_persist ⟨[teacherA], [teacherA]⟩ teacherBody
    "g-1" "t-1").2.2 teacherA (by decide)

/-- Claim C5 (counterexample).  An update on the teachers collection with an
unknown identifier answers status 400, not the claimed 404 (the handler's own
swagger documents 400 for this case). -/
theorem C5_teachers_update_unknown_id_status_400 :
    (teachersUpdate ⟨[], []⟩ "nope" teacherBody).1 =
      .err 400 "Professor(a) não encontrado" ∧
    (400 : Nat) ≠ 404 := by
  refine ⟨rfl, by decide⟩

/-- Claim C5 (amended).  An update with an unknown identifier yields an error
response with a JSON message and leaves the store (memory and file) exactly
unchanged; the status is 400 in the teachers handler and 404 in the events
handler. -/
theorem C5_update_unknown_id (st : Store Teacher) (se : Store Event)
    (id : String) (tb : Teacher) (eb : EventBody)
    (ht : jsFindIndex (fun t => t.id == id) st.mem = none)
    (he : jsFindIndex (fun e => e.id == id) se.mem = none) :
    teachersUpdate st id tb = (.err 400 "Professor(a) não encontrado", st) ∧
    eventsUpdate se id eb = (.err 404 "Evento não encontrado", se) := by
  constructor
  · simp [teachersUpdate, ht]
  · simp [eventsUpdate, he]

/-- Claim C5 (witness): the amended unknown-identifier theorem applied to
concrete empty stores. -/
theorem C5_update_unknown_id_witness :
    teachersUpdate ⟨[], []⟩ "nope" teacherBody =
      (.err 400 "Professor(a) não encontrado", ⟨[], []⟩) ∧
    eventsUpdate ⟨[], []⟩ "nope" eventBodyWithId =
      (.err 404 "Evento não encontrado", ⟨[], []⟩) := by
  exact C5_update_unknown_id ⟨[], []⟩ ⟨[], []⟩ "nope" teacherBody eventBodyWithId
    rfl rfl

/-- Claim C6 (counterexample).  A create on the alternative users module with a
missing `name` field answers status 404 (with a field-specific message), not
the claimed 400. -/
theorem C6_users_alt_create_validation_status_404 :
    (usersCreateAlt ⟨[], []⟩ userBodyNoName "u-9").1 =
      .err 404 "Campo nome do usuário não está preenchido. Por favor preencha para prosseguir o cadastro!" ∧
    (404 : Nat) ≠ 400 := by
  refine ⟨rfl, by decide⟩

/-- Claim C6 (amended).  A create whose body misses at least one required field
yields a field-specific JSON validation error and leaves the store (memory and
file) exactly unchanged; the status is 400 in the teachers handler but 404 in
the alternative users module. -/
theorem C6_create_missing_field (s : Store Teacher) (su : Store User)
    (body : Teacher) (ubody : User) (g gu : String)
    (hmiss : ¬(truthy body.name = true ∧ truthy body.school_disciplines = true ∧
      truthy body.contact = true ∧ truthy body.phone_number = true ∧
      truthy body.status = true))
    (humiss : ¬(truthy ubody.name = true ∧ truthy ubody.email = true ∧
      truthy ubody.user = true ∧ truthy ubody.level = true ∧
      truthy ubody.status = true)) :
    (∃ msg, teachersCreate s body g = (.err 400 msg, s)) ∧
    (∃ msg, usersCreateAlt su ubody gu = (.err 404 msg, su)) := by
  constructor
  · cases h1 : truthy body.name with
    | false => exact ⟨"O Professor(a) precisa ter um nome", by simp [teachersCreate, h1]⟩
    | true =>
      cases h2 : truthy body.school_disciplines with
      | false =>
        exact ⟨"O professor(a) precisa ter uma disciplina", by simp [teachersCreate, h1, h2]⟩
      | true =>
        cases h3 : truthy body.contact with
        | false =>
          exact ⟨"O professor(a) precisas ter um e-mail", by simp [teachersCreate, h1, h2, h3]⟩
        | true =>
          cases h4 : truthy body.phone_number with
          | false =>
            exact ⟨"O professor(a) precisa ter um telefone", by simp [teachersCreate, h1, h2, h3, h4]⟩
          | true =>
            cases h5 : truthy body.status with
            | false =>
              exact ⟨"O professor(a) precisa ter um status", by simp [teachersCreate, h1, h2, h3, h4, h5]⟩
            | true => exact absurd ⟨h1, h2, h3, h4, h5⟩ hmiss
  · cases h1 : truthy ubody.name with
    | false =>
      exact ⟨"Campo nome do usuário não está preenchido. Por favor preencha para prosseguir o cadastro!",
        by simp [usersCreateAlt, h1]⟩
    | true =>
      cases h2 : truthy ubody.email with
      | false =>
        exact ⟨"Campo email do usuário não está preenchido. Por favor preencha para prosseguir o cadastro!",
          by simp [usersCreateAlt, h1, h2]⟩
      | true =>
        cases h3 : truthy ubody.user with
        | false =>
          exact ⟨"Campo user do usuário não está preenchido. Por favor preencha para prosseguir o cadastro!",
            by simp [usersCreateAlt, h1, h2, h3]⟩
        | true =>
          cases h4 : truthy ubody.level with
          | false =>
            exact ⟨"Campo nível do usuário não está preenchido. Por favor preencha para prosseguir o cadastro!",
              by simp [usersCreateAlt, h1, h2, h3, h4]⟩
          | true =>
            cases h5 : truthy ubody.status with
            | false =>
              exact ⟨"Campo status do usuário não está preenchido. Por favor preencha para prosseguir o cadastro!",
                by simp [usersCreateAlt, h1, h2, h3, h4, h5]⟩
            | true => exact absurd ⟨h1, h2, h3, h4, h5⟩ humiss

/-- Claim C6 (witness): the amended validation theorem applied to concrete
bodies, each with an empty `name` field. -/
theorem C6_create_missing_field_witness :
    (∃ msg, teachersCreate ⟨[], []⟩ { teacherBody with name := "" } "g-1" =
      (.err 400 msg, ⟨[], []⟩)) ∧
    (∃ msg, usersCreateAlt ⟨[], []⟩ userBodyNoName "u-9" =
      (.err 404 msg, ⟨[], []⟩)) := by
  exact C6_create_missing_field ⟨[], []⟩ ⟨[], []⟩ { teacherBody with name := "" }
    userBodyNoName "g-1" "u-9" (by decide) (by decide)

/-- Claim C7.  Round-trip on the teachers store: creating a record from a body
with every required field present and a generated identifier not already in
the collection answers exactly `{ body with id := genId }`, and fetching that
identifier from the post-create collection returns the identical record. -/
theorem C7_create_then_get_roundtrip (s : Store Teacher) (body : Teacher)
    (genId : String)
    (hfresh : s.mem.find? (fun t => t.id == genId) = none)
    (h1 : truthy body.name = true)
    (h2 : truthy body.school_disciplines = true)
    (h3 : truthy body.contact = true)
    (h4 : truthy body.phone_number = true)
    (h5 : truthy body.status = true) :
    (teachersCreate s body genId).1 = .ok 200 { body with id := genId } ∧
    teachersGetById (teachersCreate s body genId).2.mem genId =
      .ok 200 { body with id := genId } := by
  have hmem : (teachersCreate s body genId).2.mem =
      s.mem ++ [{ body with id := genId }] := by
    simp [teachersCreate, h1, h2, h3, h4, h5, writeFileSync]
  constructor
  · simp [teachersCreate, h1, h2, h3, h4, h5]
  · rw [hmem]
    unfold teachersGetById
    rw [List.find?_append, hfresh]
    simp [List.find?]

/-- Claim C7 (witness): the round-trip theorem applied to an empty store and a
concrete body. -/
theorem C7_create_then_get_roundtrip_witness :
    teachersGetById (teachersCreate ⟨[], []⟩ teacherBody "g-1").2.mem "g-1" =
      .ok 200 { teacherBody with id := "g-1" } := by
  exact (C7_create_then_get_roundtrip ⟨[], []⟩ teacherBody "g-1" rfl rfl rfl rfl
    rfl rfl).2

/-- Claim C8 (counterexample).  The teachers search answers an empty match set
with a 404 error instead of returning the empty list as the result: searching
`"zzz"` over a collection whose only name is `"Alice"` yields the 404 error
even though the case-insensitive match set is `[]`. -/
theorem C8_teachers_search_empty_is_404 :
    teachersSearchByName [teacherA] (some "zzz") =
      .err 404 "Nenhum professor(a) encontrado" ∧
    [teacherA].filter (fun t => jsIncludes (jsToLowerCase t.name)
      (jsToLowerCase "zzz")) = [] := by
  refine ⟨by decide, by decide⟩

/-- Claim C8 (amended).  The search operations return exactly the records whose
searched field contains the query as a substring under case-insensitive
comparison: the events search returns that set as the result even when it is
empty, while the teachers search returns it only when it is non-empty and
answers an empty match set with a 404 error. -/
theorem C8_search_case_insensitive (edb : List Event) (tdb : List Teacher)
    (d q : String) (hd : d.isEmpty = false) :
    (eventsSearch edb (some d) none =
      .ok 200 (edb.filter (fun e => jsIncludes (jsToLowerCase e.description)
        (jsToLowerCase d))) ∧
      ∀ e, e ∈ edb.filter (fun e => jsIncludes (jsToLowerCase e.description)
          (jsToLowerCase d)) ↔
        e ∈ edb ∧ jsIncludes (jsToLowerCase e.description) (jsToLowerCase d) = true) ∧
    (tdb.filter (fun t => jsIncludes (jsToLowerCase t.name) (jsToLowerCase q)) = [] →
      teachersSearchByName tdb (some q) = .err 404 "Nenhum professor(a) encontrado") ∧
    (tdb.filter (fun t => jsIncludes (jsToLowerCase t.name) (jsToLowerCase q)) ≠ [] →
      teachersSearchByName tdb (some q) =
        .ok 200 (tdb.filter (fun t => jsIncludes (jsToLowerCase t.name)
          (jsToLowerCase q)))) := by
  refine ⟨⟨?_, ?_⟩, ?_, ?_⟩
  · simp [eventsSearch, qTruthy, hd]
  · intro e; exact List.mem_filter
  · intro hnil; simp [teachersSearchByName, hnil]
  · intro hnil
    simp only [teachersSearchByName]
    rw [if_neg]
    simpa [List.length_eq_zero] using hnil

/-- Claim C8 (witness): the amended search theorem applied to concrete
collections — a non-empty case-insensitive match on the events search and an
empty match set on the teachers search. -/
theorem C8_search_case_insensitive_witness :
    eventsSearch [eventA] (some "EQUIPE") none = .ok 200 [eventA] ∧
    teachersSearchByName [teacherA] (some "zz-no-match") =
      .err 404 "Nenhum professor(a) encontrado" := by
  constructor
  · have h := (C8_search_case_insensitive [eventA] [teacherA] "EQUIPE"
      "zz-no-match" rfl).1.1
    rw [h]
    decide
  · exact (C8_search_case_insensitive [eventA] [teacherA] "EQUIPE"
      "zz-no-match" rfl).2.1 (by decide)

/-- Claim C9.  The users search-by-name endpoint filters by the `name`
query-string parameter only: the result never depends on the `:name` path
parameter, a request without the query parameter answers the whole collection
with status 200, and no request ever reaches the 404 branch, because the
emptiness check tests the (always true) truthiness of the result array. -/
theorem C9_users_search_ignores_path_param (db : List User) (pathName : String)
    (queryName : Option String) :
    (∃ l, usersSearchByName db pathName queryName = .ok 200 l) ∧
    usersSearchByName db pathName none = .ok 200 db ∧
    (∀ otherPath, usersSearchByName db otherPath queryName =
      usersSearchByName db pathName queryName) := by
  refine ⟨?_, ?_, ?_⟩
  · cases queryName with
    | none => exact ⟨db, by simp [usersSearchByName, qTruthy, jsArrayTruthy]⟩
    | some n =>
      cases hn : n.isEmpty with
      | true => exact ⟨db, by simp [usersSearchByName, qTruthy, jsArrayTruthy, hn]⟩
      | false =>
        exact ⟨db.filter (fun u => jsIncludes (jsToLowerCase u.name)
            (jsToLowerCase n)),
          by simp [usersSearchByName, qTruthy, jsArrayTruthy, hn]⟩
  · simp [usersSearchByName, qTruthy, jsArrayTruthy]
  · intro otherPath; rfl

/-- Claim C10.  The teachers and students search-by-name handlers crash
(a method call on an absent value, before any response) exactly when the
`name` query parameter is absent; when it is present the handlers are total
and answer either the 404 not-found error (empty match set) or a 200 with a
non-empty list of matches. -/
theorem C10_search_requires_query_param (tdb : List Teacher)
    (sdb : List Student) (q : String) :
    (∃ m, teachersSearchByName tdb none = .crash m) ∧
    (∃ m, studentsSearchByName sdb none = .crash m) ∧
    (teachersSearchByName tdb (some q) = .err 404 "Nenhum professor(a) encontrado" ∨
      ∃ l, l ≠ [] ∧ teachersSearchByName tdb (some q) = .ok 200 l) ∧
    (studentsSearchByName sdb (some q) = .err 404 "Nenhum estudante encontrado" ∨
      ∃ l, l ≠ [] ∧ studentsSearchByName sdb (some q) = .ok 200 l) := by
  refine ⟨⟨_, rfl⟩, ⟨_, rfl⟩, ?_, ?_⟩
  · cases hnil : tdb.filter (fun t => jsIncludes (jsToLowerCase t.name)
      (jsToLowerCase q)) with
    | nil => exact Or.inl (by simp [teachersSearchByName, hnil])
    | cons a l =>
      refine Or.inr ⟨a :: l, by simp, ?_⟩
      simp only [teachersSearchByName]
      rw [hnil, if_neg]
      simp
  · cases hnil : sdb.filter (fun st => jsIncludes (jsToLowerCase st.name)
      (jsToLowerCase q)) with
    | nil => exact Or.inl (by simp [studentsSearchByName, hnil])
    | cons a l =>
      refine Or.inr ⟨a :: l, by simp, ?_⟩
      simp only [studentsSearchByName]
      rw [hnil, if_neg]
      simp

end ApiGestaoEnsino
